import Mathlib

/-
Verification of the go-app-metrics periodic sampling collector.

The development shallow-embeds the repository's two samplers:
  * package `system` (Collector, collectStats, New, Once, Run, SystemStats),
  * package `monitor` (CaptureSystemStatsOnce sections, getAllCPUTime,
    registerBandwidthMetrics, RegisterSystemStats),
together with the HTTP handler of package `stat` (Stats).

Go's float64 arithmetic is modelled with exact rationals (ℚ); uint64
counters are modelled as Nat with explicit reduction modulo 2^64 where the
code's wrap-around subtraction matters; Go's int64 conversions are modelled
explicitly. Platform reads (gopsutil calls) are inputs of the embedded
functions: `none` models a failed call, mirroring `err != nil`.
-/

namespace AppMetrics

/-- The modulus of Go's uint64 arithmetic. -/
def U64 : Nat := 2 ^ 64

/-- Go's uint64 subtraction `a - b`: wrap-around modulo 2^64. -/
def u64sub (a b : Nat) : Nat := (a % U64 + (U64 - b % U64)) % U64

/-- Go's conversion `int64(u)` of a uint64 value: reinterpret modulo 2^64
into the signed range. -/
def i64ofU64 (n : Nat) : Int :=
  if n % U64 < 2 ^ 63 then ((n % U64 : Nat) : Int) else ((n % U64 : Nat) : Int) - (U64 : Int)

/-- CPU time buckets as returned by the gopsutil cpu library (fields of
`cpu.TimesStat`, float64 modelled as ℚ). -/
structure TimesStat where
  User : ℚ := 0
  System : ℚ := 0
  Nice : ℚ := 0
  Iowait : ℚ := 0
  Irq : ℚ := 0
  Softirq : ℚ := 0
  Steal : ℚ := 0
  Guest : ℚ := 0
  GuestNice : ℚ := 0
  Stolen : ℚ := 0
  Idle : ℚ := 0
  deriving DecidableEq, Repr

/-- gopsutil's `TimesStat.Total()`: the sum of all category buckets.  The
same sum appears verbatim in the repository's own `getAllCPUTime`. -/
def TimesStat.Total (t : TimesStat) : ℚ :=
  t.User + t.System + t.Nice + t.Iowait + t.Irq + t.Softirq + t.Steal +
    t.Guest + t.GuestNice + t.Stolen + t.Idle

/-- gopsutil's `net.IOCountersStat` (uint64 counters as Nat). -/
structure IOCountersStat where
  Name : String := ""
  BytesSent : Nat := 0
  BytesRecv : Nat := 0
  PacketsSent : Nat := 0
  PacketsRecv : Nat := 0
  deriving DecidableEq, Repr

/-- gopsutil's `load.AvgStat`. -/
structure AvgStat where
  Load1 : ℚ := 0
  Load5 : ℚ := 0
  Load15 : ℚ := 0
  deriving DecidableEq, Repr

/-- gopsutil's `mem.VirtualMemoryStat` (the fields the repository reads). -/
structure VirtualMemoryStat where
  Total : Nat := 0
  Available : Nat := 0
  Used : Nat := 0
  deriving DecidableEq, Repr

/-- gopsutil's `mem.SwapMemoryStat` (the fields the repository reads). -/
structure SwapMemoryStat where
  Total : Nat := 0
  Free : Nat := 0
  Used : Nat := 0
  deriving DecidableEq, Repr

/-- gopsutil's `disk.UsageStat` (the fields the repository reads). -/
structure UsageStat where
  Total : Nat := 0
  Free : Nat := 0
  deriving DecidableEq, Repr

/-- gopsutil's `disk.PartitionStat` (the field the repository reads). -/
structure PartitionStat where
  Mountpoint : String := ""
  deriving DecidableEq, Repr

/-- One collection cycle's platform reads.  A `none` value models the
corresponding gopsutil call returning a non-nil error. -/
structure Env where
  cpuTimes : Option (List TimesStat) := none
  loadAvg : Option AvgStat := none
  virtualMemory : Option VirtualMemoryStat := none
  swapMemory : Option SwapMemoryStat := none
  diskUsage : String → Option UsageStat := fun _ => none
  netIOCounters : Option (List IOCountersStat) := none

/-- First-match lookup in an association list keyed by strings
(Go map read `m[k]`, with `none` for a missing key / nil entry). -/
def findS {α : Type} (k : String) : List (String × α) → Option α
  | [] => none
  | (k', v) :: t => if k' = k then some v else findS k t

/-- Association-list update (Go map write `m[k] = v`). -/
def setS {α : Type} (k : String) (v : α) : List (String × α) → List (String × α)
  | [] => [(k, v)]
  | (k', v') :: t => if k' = k then (k, v) :: t else (k', v') :: setS k v t

/-- The anonymous `CPUStat` struct of `SystemStats` (percentages, float64). -/
structure CPUStatValues where
  User : ℚ := 0
  System : ℚ := 0
  Idle : ℚ := 0
  Iowait : ℚ := 0
  deriving DecidableEq, Repr

/-- The anonymous `LoadStat` struct of `SystemStats`. -/
structure LoadStatValues where
  Load1 : ℚ := 0
  Load5 : ℚ := 0
  Load15 : ℚ := 0
  deriving DecidableEq, Repr

/-- The anonymous `MemStat` struct of `SystemStats`. -/
structure MemStatValues where
  Total : Nat := 0
  Available : Nat := 0
  Used : Nat := 0
  deriving DecidableEq, Repr

/-- The anonymous `SwapMemStat` struct of `SystemStats`. -/
structure SwapMemStatValues where
  Total : Nat := 0
  Free : Nat := 0
  Used : Nat := 0
  deriving DecidableEq, Repr

/-- `system.DiskStat`. -/
structure DiskStat where
  Total : Nat := 0
  Free : Nat := 0
  deriving DecidableEq, Repr

/-- `system.BandwidthStat` (per-interval deltas, uint64). -/
structure BandwidthStat where
  BytesSent : Nat := 0
  BytesRecv : Nat := 0
  PacketsSent : Nat := 0
  PacketsRecv : Nat := 0
  deriving DecidableEq, Repr

/-- `system.SystemStats`: one Snapshot.  The Go maps are modelled as
association lists. -/
structure SystemStats where
  CPUStat : CPUStatValues := {}
  LoadStat : LoadStatValues := {}
  MemStat : MemStatValues := {}
  SwapMemStat : SwapMemStatValues := {}
  DiskStat : List (String × DiskStat) := []
  BandwidthStat : List (String × BandwidthStat) := []
  deriving DecidableEq, Repr

/-- `system.Collector`: the private delta-state plus the construction-time
partition list.  `CollectInterval`, `Done` and the callback live in the run
loop model (`Run`), not here. -/
structure Collector where
  cpuStat : Option TimesStat := none
  partitions : List String := []
  netStats : List (String × IOCountersStat) := []
  deriving Repr

/-- The cpu section of `system.Collector.collectStats` (lines guarded by
`err == nil && len(cpustats) > 0`): computes the four category percentages
from the previous sample and returns the new previous-sample state. -/
def collectCPU (prev? : Option TimesStat) (read : Option (List TimesStat)) :
    CPUStatValues × Option TimesStat :=
  match read with
  | some (cpustat2 :: _) =>
    let cpuStat := prev?.getD cpustat2
    let total1 := cpuStat.Total
    let total2 := cpustat2.Total
    let total := total2 - total1
    let c : CPUStatValues :=
      if 0 < total then
        { User := (cpustat2.User - cpuStat.User) * 100 / total,
          System := (cpustat2.System - cpuStat.System) * 100 / total,
          Iowait := (cpustat2.Iowait - cpuStat.Iowait) * 100 / total,
          Idle := (cpustat2.Idle - cpuStat.Idle) * 100 / total }
      else {}
    (c, some cpustat2)
  | _ => ({}, prev?)

/-- The disk section of `collectStats`: for each construction-time
partition, a failing `disk.Usage` read is skipped (`continue`), a successful
one inserts the partition's entry into the Snapshot map. -/
def diskLoop (dRead : String → Option UsageStat) :
    List String → List (String × DiskStat) → List (String × DiskStat)
  | [], m => m
  | p :: rest, m =>
    match dRead p with
    | none => diskLoop dRead rest m
    | some s => diskLoop dRead rest (setS p { Total := s.Total, Free := s.Free } m)

/-- The bandwidth section of `collectStats`: one iteration per reported
interface; a first-seen name is first stored, so its delta is computed
against itself; afterwards the stored counters are replaced by the new
reading. -/
def bandwidthLoop : List IOCountersStat → List (String × IOCountersStat) →
    List (String × BandwidthStat) × List (String × IOCountersStat)
  | [], m => ([], m)
  | s :: rest, m =>
    let m1 := match findS s.Name m with
      | none => setS s.Name s m
      | some _ => m
    let s2 := (findS s.Name m1).getD s
    let bw : BandwidthStat :=
      { BytesSent := u64sub s.BytesSent s2.BytesSent,
        BytesRecv := u64sub s.BytesRecv s2.BytesRecv,
        PacketsSent := u64sub s.PacketsSent s2.PacketsSent,
        PacketsRecv := u64sub s.PacketsRecv s2.PacketsRecv }
    let r := bandwidthLoop rest (setS s.Name s m1)
    ((s.Name, bw) :: r.1, r.2)

/-- `system.Collector.collectStats`: collects all configured stats once,
group by group, each group from its own best-effort platform read. -/
def collectStats (env : Env) (c : Collector) : SystemStats × Collector :=
  let cpuRes := collectCPU c.cpuStat env.cpuTimes
  let loadStat : LoadStatValues :=
    match env.loadAvg with
    | some avg => { Load1 := avg.Load1, Load5 := avg.Load5, Load15 := avg.Load15 }
    | none => {}
  let memStat : MemStatValues :=
    match env.virtualMemory with
    | some v => { Total := v.Total, Available := v.Available, Used := v.Used }
    | none => {}
  let swapStat : SwapMemStatValues :=
    match env.swapMemory with
    | some v => { Total := v.Total, Free := v.Free, Used := v.Used }
    | none => {}
  let diskStat := diskLoop env.diskUsage c.partitions []
  let bwRes :=
    match env.netIOCounters with
    | some l => bandwidthLoop l c.netStats
    | none => ([], c.netStats)
  ({ CPUStat := cpuRes.1, LoadStat := loadStat, MemStat := memStat,
     SwapMemStat := swapStat, DiskStat := diskStat, BandwidthStat := bwRes.1 },
   { c with cpuStat := cpuRes.2, netStats := bwRes.2 })

/-- `system.New`: captures the partition list once at construction and
starts with empty delta-state. -/
def New (diskPartitions : List PartitionStat) : Collector :=
  { cpuStat := none,
    partitions := diskPartitions.map PartitionStat.Mountpoint,
    netStats := [] }

/-- `system.Collector.Once`: a single synchronous collection. -/
def Once (env : Env) (c : Collector) : SystemStats × Collector :=
  collectStats env c

/-- One observable event of the `Run` loop's select: either the ticker
fires (carrying that cycle's platform reads) or the Done channel is closed. -/
inductive RunEvent where
  | tick (env : Env)
  | done

/-- The `for { select { case <-c.Done: return; case <-tick.C: ... } }` body
of `system.Collector.Run`, driven by a serialized event sequence: each tick
emits one Snapshot; the first Done observation returns. -/
def runFrom (c : Collector) : List RunEvent → List SystemStats × Collector
  | [] => ([], c)
  | RunEvent.done :: _ => ([], c)
  | RunEvent.tick env :: rest =>
    let r := collectStats env c
    let rr := runFrom r.2 rest
    (r.1 :: rr.1, rr.2)

/-- `system.Collector.Run`: emits one Snapshot immediately on entry (before
the ticker is even created), then enters the select loop.  The returned
list is the sequence of Snapshots handed to the stats handler, in order. -/
def Run (c : Collector) (env0 : Env) (evs : List RunEvent) :
    List SystemStats × Collector :=
  let r := collectStats env0 c
  let rr := runFrom r.2 evs
  (r.1 :: rr.1, rr.2)

/-- Number of ticker events strictly before the first Done observation. -/
def ticksBeforeDone : List RunEvent → Nat
  | [] => 0
  | RunEvent.done :: _ => 0
  | RunEvent.tick _ :: rest => ticksBeforeDone rest + 1

/-- A rendered metric value (int64-, uint64- or float64-valued metric, as
distinguished by `SystemStats.Values` / `RuntimeStats.Values`). -/
inductive MetricValue where
  | i (n : Int)
  | u (n : Nat)
  | f (q : ℚ)
  deriving DecidableEq, Repr

/-- Rendering of one metric value (Go's `%v` verb, abstracted: exact
decimal text of the number). -/
def MetricValue.render : MetricValue → String
  | MetricValue.i n => toString n
  | MetricValue.u n => toString n
  | MetricValue.f q => toString q

/-- `system.SystemStats.Values`: the key/value pairs written to a TSDB, the
fixed keys first, then one pair per disk partition entry and per network
interface entry of the Snapshot. -/
def SystemStats.Values (ss : SystemStats) : List (String × MetricValue) :=
  [("cpu.user", MetricValue.f ss.CPUStat.User),
   ("cpu.system", MetricValue.f ss.CPUStat.System),
   ("cpu.idle", MetricValue.f ss.CPUStat.Idle),
   ("cpu.iowait", MetricValue.f ss.CPUStat.Iowait),
   ("load.load1", MetricValue.f ss.LoadStat.Load1),
   ("load.load5", MetricValue.f ss.LoadStat.Load5),
   ("load.load15", MetricValue.f ss.LoadStat.Load15),
   ("mem.total", MetricValue.u ss.MemStat.Total),
   ("mem.available", MetricValue.u ss.MemStat.Available),
   ("mem.used", MetricValue.u ss.MemStat.Used),
   ("swap.total", MetricValue.u ss.SwapMemStat.Total),
   ("swap.free", MetricValue.u ss.SwapMemStat.Free),
   ("swap.used", MetricValue.u ss.SwapMemStat.Used)]
  ++ ss.DiskStat.foldr (fun pr acc =>
       ("disk." ++ pr.1 ++ ".total", MetricValue.u pr.2.Total) ::
       ("disk." ++ pr.1 ++ ".free", MetricValue.u pr.2.Free) :: acc) []
  ++ ss.BandwidthStat.foldr (fun pr acc =>
       ("net." ++ pr.1 ++ ".bytes_sent", MetricValue.u pr.2.BytesSent) ::
       ("net." ++ pr.1 ++ ".bytes_recv", MetricValue.u pr.2.BytesRecv) ::
       ("net." ++ pr.1 ++ ".packets_sent", MetricValue.u pr.2.PacketsSent) ::
       ("net." ++ pr.1 ++ ".packets_recv", MetricValue.u pr.2.PacketsRecv) :: acc) []

namespace Stat

/-- Decimal digit run of Go's `strconv.ParseInt` (base 10): every character
must be a digit and the run must be nonempty for the overall parse to
succeed. -/
def parseDigitsAux : List Char → Nat → Option Nat
  | [], acc => some acc
  | ch :: r, acc =>
    if '0' ≤ ch ∧ ch ≤ '9' then parseDigitsAux r (acc * 10 + (ch.toNat - '0'.toNat))
    else none

/-- Nonempty all-digit parse. -/
def parseDigits : List Char → Option Nat
  | [] => none
  | l => parseDigitsAux l 0

/-- Model of Go's `strconv.ParseInt(s, 10, 64)` as used by `stat.Stats`:
`none` stands for any non-nil error (syntax error, empty string for a
missing form value, or int64 range overflow — the caller treats all of
these identically). -/
def goParseInt (s : String) : Option Int :=
  match s.data with
  | [] => none
  | '+' :: ds =>
    (parseDigits ds).bind fun n =>
      if (n : Int) ≤ 2 ^ 63 - 1 then some (n : Int) else none
  | '-' :: ds =>
    (parseDigits ds).bind fun n =>
      if (n : Int) ≤ 2 ^ 63 then some (-(n : Int)) else none
  | ds =>
    (parseDigits ds).bind fun n =>
      if (n : Int) ≤ 2 ^ 63 - 1 then some (n : Int) else none

/-- The response assembled by `stat.Stats`: headers, the slept duration in
seconds, and the body as a list of lines. -/
structure StatsResponse where
  statusCode : Nat
  contentType : String
  waitSeconds : Int
  body : List String
  deriving DecidableEq, Repr

/-- One `key=value` body line (`fmt.Sprintf` with a string key and a `%v`
value). -/
def renderLine (kv : String × MetricValue) : String :=
  kv.1 ++ "=" ++ kv.2.render

/-- `stat.Stats`: parses the `seconds` form value, normalizes it to 30 when
it is missing, unparsable or non-positive, sleeps, then renders the runtime
collector's values followed by the system collector's values, one
`key=value` line per metric, with an implicit 200 status.  The runtime
collector's value list is an input (`rvals`); the system Snapshot's values
come from `SystemStats.Values`. -/
def Stats (secondsValue : String) (rvals : List (String × MetricValue))
    (ss : SystemStats) : StatsResponse :=
  let sec : Int :=
    match goParseInt secondsValue with
    | some n => if n ≤ 0 then 30 else n
    | none => 30
  { statusCode := 200,
    contentType := "text/plain; charset=utf-8",
    waitSeconds := sec,
    body := (rvals ++ ss.Values).map renderLine }

end Stat

namespace Monitor

/-- `monitor.getAllCPUTime`: returns the pair `(0, sum of all buckets)` —
the total is the second component, the first is the literal 0. -/
def getAllCPUTime (t : TimesStat) : ℚ × ℚ :=
  (0, t.User + t.System + t.Nice + t.Iowait + t.Irq + t.Softirq + t.Steal +
    t.Guest + t.GuestNice + t.Stolen + t.Idle)

/-- The four CPU gauges of the monitor package's `systemMetrics.CPUStat`
(go-metrics gauges hold an int64; a fresh gauge reads 0). -/
structure CPUGauges where
  User : Int := 0
  System : Int := 0
  Idle : Int := 0
  Iowait : Int := 0
  deriving DecidableEq, Repr

/-- Go's `int64(f)` conversion of a float64, for in-range values:
truncation toward zero (modelled on ℚ). -/
def float64ToInt64 (q : ℚ) : Int :=
  Int.sign q.num * ((q.num.natAbs : Int) / (q.den : Int))

/-- The cpu section of `monitor.CaptureSystemStatsOnce`: reads the first
cpu.Times entry, takes the FIRST component of `getAllCPUTime` for both the
previous and the new sample as `total1`/`total2`, and updates the four CPU
gauges only when `total2 - total1` is nonzero. -/
def captureCPUOnce (read : Option (List TimesStat)) (cpuStat : Option TimesStat)
    (g : CPUGauges) : Option TimesStat × CPUGauges :=
  match read with
  | some (cpustat2 :: _) =>
    let prev := cpuStat.getD cpustat2
    let total1 := (getAllCPUTime prev).1
    let total2 := (getAllCPUTime cpustat2).1
    let total := total2 - total1
    let g2 :=
      if total ≠ 0 then
        { User := float64ToInt64 ((cpustat2.User - prev.User) * 100 / total),
          System := float64ToInt64 ((cpustat2.System - prev.System) * 100 / total),
          Iowait := float64ToInt64 ((cpustat2.Iowait - prev.Iowait) * 100 / total),
          Idle := float64ToInt64 ((cpustat2.Idle - prev.Idle) * 100 / total) }
      else g
    (some cpustat2, g2)
  | _ => (cpuStat, g)

/-- The four bandwidth gauge cells of one `systemMetrics.BandwidthStat`
entry (int64 gauge values; a fresh gauge reads 0). -/
structure BandwidthGauges where
  BytesSent : Int := 0
  BytesRecv : Int := 0
  PacketsSent : Int := 0
  PacketsRecv : Int := 0
  deriving DecidableEq, Repr

/-- The bandwidth section of `monitor.CaptureSystemStatsOnce`: per reported
interface, a first-seen name is stored so its delta is computed against
itself; missing gauge cells are lazily registered (fresh cells read 0); the
four cells are then updated with `int64(now - prev)` of each uint64
counter, and the stored counters replaced by the new reading. -/
def captureBandwidthLoop :
    List IOCountersStat → List (String × IOCountersStat) →
    List (String × BandwidthGauges) →
    List (String × BandwidthGauges) × List (String × IOCountersStat)
  | [], m, g => (g, m)
  | s :: rest, m, g =>
    let m1 := match findS s.Name m with
      | none => setS s.Name s m
      | some _ => m
    let s2 := (findS s.Name m1).getD s
    let g1 := match findS s.Name g with
      | none => setS s.Name ({} : BandwidthGauges) g
      | some _ => g
    let cell : BandwidthGauges :=
      { BytesSent := i64ofU64 (u64sub s.BytesSent s2.BytesSent),
        BytesRecv := i64ofU64 (u64sub s.BytesRecv s2.BytesRecv),
        PacketsSent := i64ofU64 (u64sub s.PacketsSent s2.PacketsSent),
        PacketsRecv := i64ofU64 (u64sub s.PacketsRecv s2.PacketsRecv) }
    captureBandwidthLoop rest (setS s.Name s m1) (setS s.Name cell g1)

/-- The gauge-cell ids created by one `monitor.registerBandwidthMetrics`
call (`bsGauge`, `bcGauge`, `psGauge`, `pcGauge` in the source). -/
structure BandwidthGaugeIds where
  BytesSent : Nat
  BytesRecv : Nat
  PacketsSent : Nat
  PacketsRecv : Nat
  deriving DecidableEq, Repr

/-- `monitor.registerBandwidthMetrics`: allocates four fresh gauge cells,
stores them as the interface's `BandwidthStat` entry, and registers the
four per-interface counter names in the registry.  The registry is modelled
as a list of (metric name, gauge cell id) bindings; `nextId` numbers fresh
cells. -/
def registerBandwidthMetrics (nextId : Nat) (r : List (String × Nat))
    (name : String) : BandwidthGaugeIds × List (String × Nat) × Nat :=
  let bsGauge := nextId
  let bcGauge := nextId + 1
  let psGauge := nextId + 2
  let pcGauge := nextId + 3
  (⟨bsGauge, bcGauge, psGauge, pcGauge⟩,
   r ++ [("bandwidth." ++ name ++ ".BytesSent", bsGauge),
         ("bandwidth." ++ name ++ ".BytesRecv", bsGauge),
         ("bandwidth." ++ name ++ ".PacketsSent", bsGauge),
         ("bandwidth." ++ name ++ ".PacketsRecv", bsGauge)],
   nextId + 4)

/-- The disk section of `monitor.CaptureSystemStatsOnce`: iterates the
construction-time partition list only, skipping failed reads, and updates
that partition's two gauge cells with `int64` of the usage values. -/
def captureDiskOnce (dRead : String → Option UsageStat) :
    List String → List (String × (Int × Int)) → List (String × (Int × Int))
  | [], g => g
  | p :: rest, g =>
    match dRead p with
    | none => captureDiskOnce dRead rest g
    | some s => captureDiskOnce dRead rest (setS p (i64ofU64 s.Total, i64ofU64 s.Free) g)

/-- The partition-list initialization of `monitor.RegisterSystemStats`:
the mountpoints of the construction-time `disk.Partitions` read. -/
def registerPartitions (stats : List PartitionStat) : List String :=
  stats.map PartitionStat.Mountpoint

/-- The disk registry names created by `monitor.RegisterSystemStats`: two
entries per construction-time partition. -/
def registerDiskNames (partitions : List String) : List String :=
  partitions.foldr (fun p acc => ("disk." ++ p ++ ".Total") :: ("disk." ++ p ++ ".Free") :: acc) []

end Monitor

/-- Interface name used by the concrete witness inputs below. -/
def eth0 : String := "eth0"

/-- Root mountpoint used by the concrete witness inputs below. -/
def rootMount : String := "/"

/-- Witness input: a previous CPU sample with Total 100. -/
def prevEx : TimesStat := { User := 10, Idle := 90 }

/-- Witness input: a subsequent CPU sample with Total 200. -/
def curEx : TimesStat := { User := 30, Idle := 170 }

/-- Witness input: previously stored interface counters. -/
def ioPrevEx : IOCountersStat :=
  { Name := "eth0", BytesSent := 100, BytesRecv := 150, PacketsSent := 2, PacketsRecv := 3 }

/-- Witness input: current interface counters (all larger than `ioPrevEx`). -/
def ioCurEx : IOCountersStat :=
  { Name := "eth0", BytesSent := 300, BytesRecv := 400, PacketsSent := 5, PacketsRecv := 6 }

/-- Counterexample input: all-zero interface counters. -/
def ioZeroEx : IOCountersStat := { Name := "eth0" }

/-- Counterexample input: a bytes-sent reading of 2^63. -/
def ioHugeEx : IOCountersStat := { Name := "eth0", BytesSent := 2 ^ 63 }

/-- Witness input: an environment where every platform read succeeds. -/
def envEx : Env :=
  { cpuTimes := some [curEx],
    loadAvg := some { Load1 := 1, Load5 := 2, Load15 := 3 },
    virtualMemory := some { Total := 1000, Available := 600, Used := 400 },
    swapMemory := some { Total := 500, Free := 300, Used := 200 },
    diskUsage := fun p => if p = "/" then some { Total := 10000, Free := 2500 } else none,
    netIOCounters := some [ioCurEx] }

/-- Witness input: a collector that has already seen `prevEx` and `ioPrevEx`. -/
def cEx : Collector :=
  { cpuStat := some prevEx, partitions := ["/", "/data"], netStats := [("eth0", ioPrevEx)] }

/-- Witness input: an environment whose CPU read repeats the previous sample. -/
def envEqEx : Env := { envEx with cpuTimes := some [prevEx] }

/-- Witness input: a mountpoint outside every construction-time list used
by the witnesses. -/
def tmpMount : String := "/tmp"

/-- Witness input: `seconds` form value absent (FormValue yields ""). -/
def emptySecondsEx : String := ""

/-- Witness input: an unparsable `seconds` form value. -/
def badSecondsEx : String := "abc"

/-- Witness input: a negative `seconds` form value. -/
def negSecondsEx : String := "-5"

/-- Helper lemmas about the association-list operations. -/
theorem findS_setS_self {α : Type} (k : String) (v : α) (m : List (String × α)) :
    findS k (setS k v m) = some v := by
  induction m with
  | nil => simp [setS, findS]
  | cons hd t ih =>
    obtain ⟨k', v'⟩ := hd
    by_cases h : k' = k
    · simp [setS, h, findS]
    · simp [setS, h, findS, ih]

theorem findS_setS_ne {α : Type} {k k' : String} (h : k' ≠ k) (v : α)
    (m : List (String × α)) : findS k (setS k' v m) = findS k m := by
  induction m with
  | nil => simp [setS, findS, h]
  | cons hd t ih =>
    obtain ⟨k2, v2⟩ := hd
    by_cases h2 : k2 = k'
    · subst h2; simp [setS, findS, h]
    · simp [setS, h2, findS, ih]

theorem u64sub_self (a : Nat) : u64sub a a = 0 := by
  have hpos : 0 < U64 := by decide
  have h : a % U64 ≤ U64 := Nat.le_of_lt (Nat.mod_lt a hpos)
  unfold u64sub
  rw [Nat.add_sub_cancel' h, Nat.mod_self]

theorem u64sub_exact {a b : Nat} (hba : b ≤ a) (ha : a < U64) :
    u64sub a b = a - b := by
  have hb : b < U64 := lt_of_le_of_lt hba ha
  unfold u64sub
  rw [Nat.mod_eq_of_lt ha, Nat.mod_eq_of_lt hb]
  have h1 : a + (U64 - b) = (a - b) + U64 := by omega
  rw [h1, Nat.add_mod_right]
  exact Nat.mod_eq_of_lt (by omega)

theorem i64ofU64_small {n : Nat} (h : n < 2 ^ 63) : i64ofU64 n = (n : Int) := by
  have hlt : n < U64 := lt_trans h (by norm_num [U64])
  unfold i64ofU64
  rw [Nat.mod_eq_of_lt hlt, if_pos h]

/-- The monitor package's CPU gauges are never written: both components of
the elapsed-total computation come from the first projection of
`getAllCPUTime`, which is the constant 0. -/
theorem captureCPUOnce_gauges_eq (read : Option (List TimesStat))
    (st : Option TimesStat) (g : Monitor.CPUGauges) :
    (Monitor.captureCPUOnce read st g).2 = g := by
  cases read with
  | none => rfl
  | some l =>
    cases l with
    | nil => rfl
    | cons t rest => simp [Monitor.captureCPUOnce, Monitor.getAllCPUTime]

theorem findS_diskLoop_isSome (dRead : String → Option UsageStat)
    (ps : List String) (p : String) :
    ∀ m : List (String × DiskStat),
      (findS p (diskLoop dRead ps m)).isSome ↔
        (p ∈ ps ∧ (dRead p).isSome) ∨ (findS p m).isSome := by
  induction ps with
  | nil => intro m; simp [diskLoop]
  | cons q rest ih =>
    intro m
    by_cases hpq : p = q
    · subst hpq
      cases hq : dRead p with
      | none => simp [diskLoop, hq, ih]
      | some s => simp [diskLoop, hq, ih, findS_setS_self]
    · have hqp : q ≠ p := fun h => hpq h.symm
      cases hq : dRead q with
      | none => simp [diskLoop, hq, ih, hpq]
      | some s => simp [diskLoop, hq, ih, findS_setS_ne hqp, hpq]

theorem findS_diskLoop_not_mem (dRead : String → Option UsageStat)
    (ps : List String) (p : String) (hp : p ∉ ps) :
    ∀ m : List (String × DiskStat),
      findS p (diskLoop dRead ps m) = findS p m := by
  induction ps with
  | nil => intro m; simp [diskLoop]
  | cons q rest ih =>
    intro m
    have hpq : p ≠ q := fun h => hp (h ▸ List.mem_cons_self q rest)
    have hrest : p ∉ rest := fun h => hp (List.mem_cons_of_mem q h)
    cases hq : dRead q with
    | none => simp [diskLoop, hq, ih hrest]
    | some s =>
      simp [diskLoop, hq, ih hrest, findS_setS_ne (fun h => hpq h.symm)]

/-- From a delta-state containing none of the reported interface names, and
with pairwise-distinct reported names, every bandwidth delta of the cycle
is zero. -/
theorem bandwidthLoop_fresh_zero (ns : List IOCountersStat) :
    ∀ m : List (String × IOCountersStat),
      (∀ s ∈ ns, findS s.Name m = none) →
      (ns.map IOCountersStat.Name).Nodup →
      ∀ pr ∈ (bandwidthLoop ns m).1, pr.2 = ({} : BandwidthStat) := by
  induction ns with
  | nil => intro m _ _ pr hpr; simp [bandwidthLoop] at hpr
  | cons s rest ih =>
    intro m hfresh hnodup pr hpr
    have hs : findS s.Name m = none := hfresh s (List.mem_cons_self s rest)
    simp only [List.map_cons, List.nodup_cons] at hnodup
    obtain ⟨hname, hnodup'⟩ := hnodup
    rw [bandwidthLoop] at hpr
    simp only [hs, findS_setS_self, Option.getD_some] at hpr
    rcases List.mem_cons.mp hpr with hhd | htl
    · rw [hhd]
      simp [u64sub_self]
    · refine ih _ ?_ hnodup' pr htl
      intro s' hs'
      have hne : s'.Name ≠ s.Name := by
        intro h
        exact hname (h ▸ List.mem_map_of_mem IOCountersStat.Name hs')
      rw [findS_setS_ne hne.symm, findS_setS_ne hne.symm]
      exact hfresh s' (List.mem_cons_of_mem s hs')

theorem runFrom_length (evs : List RunEvent) :
    ∀ c : Collector, ((runFrom c evs).1).length = ticksBeforeDone evs := by
  induction evs with
  | nil => intro c; rfl
  | cons e rest ih =>
    intro c
    cases e with
    | done => rfl
    | tick env => simp [runFrom, ticksBeforeDone, ih]

theorem collectStats_partitions (env : Env) (c : Collector) :
    (collectStats env c).2.partitions = c.partitions := rfl

theorem runFrom_partitions (evs : List RunEvent) :
    ∀ c : Collector, ((runFrom c evs).2).partitions = c.partitions := by
  induction evs with
  | nil => intro c; rfl
  | cons e rest ih =>
    intro c
    cases e with
    | done => rfl
    | tick env =>
      simp [runFrom, ih]
      exact collectStats_partitions env c

theorem runFrom_ticks_then_done (envs : List Env) (post : List RunEvent) :
    ∀ c : Collector,
      (runFrom c (envs.map RunEvent.tick ++ RunEvent.done :: post)).1.length =
        envs.length := by
  induction envs with
  | nil => intro c; rfl
  | cons e rest ih => intro c; simp [runFrom, ih]

theorem captureDiskOnce_not_mem (dRead : String → Option UsageStat)
    (parts : List String) (p : String) :
    p ∉ parts → ∀ g : List (String × (Int × Int)),
      findS p (Monitor.captureDiskOnce dRead parts g) = findS p g := by
  induction parts with
  | nil => intro _ g; rfl
  | cons q rest ih =>
    intro hp g
    have hpq : p ≠ q := fun h => hp (h ▸ List.mem_cons_self q rest)
    have hrest : p ∉ rest := fun h => hp (List.mem_cons_of_mem q h)
    cases hq : dRead q with
    | none => simp [Monitor.captureDiskOnce, hq, ih hrest]
    | some s =>
      simp [Monitor.captureDiskOnce, hq, ih hrest,
        findS_setS_ne (fun h => hpq h.symm)]

theorem diskLoop_none (ps : List String) :
    ∀ m : List (String × DiskStat), diskLoop (fun _ => none) ps m = m := by
  induction ps with
  | nil => intro m; rfl
  | cons q rest ih => intro m; simp [diskLoop, ih]

theorem registerDiskNames_mem (parts : List String) :
    ∀ nm ∈ Monitor.registerDiskNames parts, ∃ q ∈ parts,
      nm = "disk." ++ q ++ ".Total" ∨ nm = "disk." ++ q ++ ".Free" := by
  induction parts with
  | nil => intro nm hnm; simp [Monitor.registerDiskNames] at hnm
  | cons q rest ih =>
    intro nm hnm
    rw [Monitor.registerDiskNames] at hnm
    rcases List.mem_cons.mp hnm with h | h'
    · exact ⟨q, List.mem_cons_self q rest, Or.inl h⟩
    · rcases List.mem_cons.mp h' with h | h
      · exact ⟨q, List.mem_cons_self q rest, Or.inr h⟩
      · obtain ⟨q', hq', hor⟩ := ih nm h
        exact ⟨q', List.mem_cons_of_mem q hq', hor⟩

/-- C1: in the Snapshot collector the category percentage is
`(now - prev) * 100 / (total_now - total_prev)` with the total summed over
all buckets, but in the metrics-registry publisher the elapsed total is
taken from the FIRST component of `getAllCPUTime` — the constant 0 (the
bucket sum is the discarded SECOND component) — so `total` is always 0, the
`total != 0` guard never passes, and the CPU gauges are never updated.  At
the concrete failing input the claim demands a user percentage of 20, the
Snapshot collector reports 20, and the publisher's gauge stays 0. -/
theorem c1_cpu_percentage_formula :
    (∀ read st g, (Monitor.captureCPUOnce read st g).2 = g) ∧
    (Monitor.getAllCPUTime curEx).1 - (Monitor.getAllCPUTime prevEx).1 = 0 ∧
    (Monitor.getAllCPUTime curEx).2 = curEx.Total ∧
    (Monitor.captureCPUOnce (some [curEx]) (some prevEx) {}).2.User = 0 ∧
    (curEx.User - prevEx.User) * 100 / (curEx.Total - prevEx.Total) = 20 ∧
    (collectCPU (some prevEx) (some [curEx])).1.User = 20 := by
  refine ⟨captureCPUOnce_gauges_eq, by simp [Monitor.getAllCPUTime], rfl, ?_, ?_, ?_⟩
  · rw [captureCPUOnce_gauges_eq]
  · norm_num [prevEx, curEx, TimesStat.Total]
  · norm_num [collectCPU, prevEx, curEx, TimesStat.Total]

/-- C1 witness: the never-updated conjunct applied at a concrete state. -/
theorem c1_cpu_percentage_formula_witness :
    (Monitor.captureCPUOnce (some [curEx]) (some prevEx) {}).2 = {} :=
  c1_cpu_percentage_formula.1 (some [curEx]) (some prevEx) {}

/-- C2: a failed platform read empties exactly its own metric group for the
cycle (for the map-valued disk group: exactly the partitions whose read
failed are missing), and — for EVERY failing group: cpu, load, memory,
swap, network, disk — leaves every other group of the Snapshot, and the
untouched parts of the delta-state, identical to the cycle in which that
read succeeds; `Once` hands back the Snapshot as a plain value — the
embedded `collectStats` is total, with no error result, exactly like the
Go signature. -/
theorem c2_failures_omit_only_their_group (env : Env) (c : Collector) :
    ((collectStats { env with loadAvg := none } c).1.LoadStat = {} ∧
     (collectStats { env with virtualMemory := none } c).1.MemStat = {} ∧
     (collectStats { env with swapMemory := none } c).1.SwapMemStat = {} ∧
     (collectStats { env with cpuTimes := none } c).1.CPUStat = {} ∧
     (collectStats { env with netIOCounters := none } c).1.BandwidthStat = [] ∧
     (collectStats { env with diskUsage := fun _ => none } c).1.DiskStat = []) ∧
    -- a failing cpu read leaves every other group and the network state unchanged
    ((collectStats { env with cpuTimes := none } c).1.LoadStat =
        (collectStats env c).1.LoadStat ∧
     (collectStats { env with cpuTimes := none } c).1.MemStat =
        (collectStats env c).1.MemStat ∧
     (collectStats { env with cpuTimes := none } c).1.SwapMemStat =
        (collectStats env c).1.SwapMemStat ∧
     (collectStats { env with cpuTimes := none } c).1.DiskStat =
        (collectStats env c).1.DiskStat ∧
     (collectStats { env with cpuTimes := none } c).1.BandwidthStat =
        (collectStats env c).1.BandwidthStat ∧
     (collectStats { env with cpuTimes := none } c).2.netStats =
        (collectStats env c).2.netStats ∧
     (collectStats { env with cpuTimes := none } c).2.partitions =
        (collectStats env c).2.partitions) ∧
    -- a failing load read leaves every other group and the whole state unchanged
    ((collectStats { env with loadAvg := none } c).1.CPUStat =
        (collectStats env c).1.CPUStat ∧
     (collectStats { env with loadAvg := none } c).1.MemStat =
        (collectStats env c).1.MemStat ∧
     (collectStats { env with loadAvg := none } c).1.SwapMemStat =
        (collectStats env c).1.SwapMemStat ∧
     (collectStats { env with loadAvg := none } c).1.DiskStat =
        (collectStats env c).1.DiskStat ∧
     (collectStats { env with loadAvg := none } c).1.BandwidthStat =
        (collectStats env c).1.BandwidthStat ∧
     (collectStats { env with loadAvg := none } c).2 = (collectStats env c).2) ∧
    -- a failing virtual-memory read leaves every other group and the state unchanged
    ((collectStats { env with virtualMemory := none } c).1.CPUStat =
        (collectStats env c).1.CPUStat ∧
     (collectStats { env with virtualMemory := none } c).1.LoadStat =
        (collectStats env c).1.LoadStat ∧
     (collectStats { env with virtualMemory := none } c).1.SwapMemStat =
        (collectStats env c).1.SwapMemStat ∧
     (collectStats { env with virtualMemory := none } c).1.DiskStat =
        (collectStats env c).1.DiskStat ∧
     (collectStats { env with virtualMemory := none } c).1.BandwidthStat =
        (collectStats env c).1.BandwidthStat ∧
     (collectStats { env with virtualMemory := none } c).2 =
        (collectStats env c).2) ∧
    -- a failing swap read leaves every other group and the state unchanged
    ((collectStats { env with swapMemory := none } c).1.CPUStat =
        (collectStats env c).1.CPUStat ∧
     (collectStats { env with swapMemory := none } c).1.LoadStat =
        (collectStats env c).1.LoadStat ∧
     (collectStats { env with swapMemory := none } c).1.MemStat =
        (collectStats env c).1.MemStat ∧
     (collectStats { env with swapMemory := none } c).1.DiskStat =
        (collectStats env c).1.DiskStat ∧
     (collectStats { env with swapMemory := none } c).1.BandwidthStat =
        (collectStats env c).1.BandwidthStat ∧
     (collectStats { env with swapMemory := none } c).2 =
        (collectStats env c).2) ∧
    -- a failing network read leaves every other group and the cpu state unchanged
    ((collectStats { env with netIOCounters := none } c).1.CPUStat =
        (collectStats env c).1.CPUStat ∧
     (collectStats { env with netIOCounters := none } c).1.LoadStat =
        (collectStats env c).1.LoadStat ∧
     (collectStats { env with netIOCounters := none } c).1.MemStat =
        (collectStats env c).1.MemStat ∧
     (collectStats { env with netIOCounters := none } c).1.SwapMemStat =
        (collectStats env c).1.SwapMemStat ∧
     (collectStats { env with netIOCounters := none } c).1.DiskStat =
        (collectStats env c).1.DiskStat ∧
     (collectStats { env with netIOCounters := none } c).2.cpuStat =
        (collectStats env c).2.cpuStat ∧
     (collectStats { env with netIOCounters := none } c).2.partitions =
        (collectStats env c).2.partitions) ∧
    -- failing disk reads leave every other group and the state unchanged
    ((collectStats { env with diskUsage := fun _ => none } c).1.CPUStat =
        (collectStats env c).1.CPUStat ∧
     (collectStats { env with diskUsage := fun _ => none } c).1.LoadStat =
        (collectStats env c).1.LoadStat ∧
     (collectStats { env with diskUsage := fun _ => none } c).1.MemStat =
        (collectStats env c).1.MemStat ∧
     (collectStats { env with diskUsage := fun _ => none } c).1.SwapMemStat =
        (collectStats env c).1.SwapMemStat ∧
     (collectStats { env with diskUsage := fun _ => none } c).1.BandwidthStat =
        (collectStats env c).1.BandwidthStat ∧
     (collectStats { env with diskUsage := fun _ => none } c).2 =
        (collectStats env c).2) ∧
    -- disk omission per partition: exactly the failing partitions are missing
    (∀ p, (findS p (collectStats env c).1.DiskStat).isSome ↔
        p ∈ c.partitions ∧ (env.diskUsage p).isSome) ∧
    Once env c = collectStats env c := by
  refine ⟨⟨rfl, rfl, rfl, rfl, rfl, ?_⟩,
    ⟨rfl, rfl, rfl, rfl, rfl, rfl, rfl⟩,
    ⟨rfl, rfl, rfl, rfl, rfl, rfl⟩,
    ⟨rfl, rfl, rfl, rfl, rfl, rfl⟩,
    ⟨rfl, rfl, rfl, rfl, rfl, rfl⟩,
    ⟨rfl, rfl, rfl, rfl, rfl, rfl, rfl⟩,
    ⟨rfl, rfl, rfl, rfl, rfl, rfl⟩, ?_, rfl⟩
  · show diskLoop (fun _ => none) c.partitions [] = []
    exact diskLoop_none c.partitions []
  · intro p
    have hd : (collectStats env c).1.DiskStat =
        diskLoop env.diskUsage c.partitions [] := rfl
    rw [hd]
    have h := findS_diskLoop_isSome env.diskUsage c.partitions p []
    simpa [findS] using h

/-- C2 witness: the disk-group membership conjunct at a concrete cycle. -/
theorem c2_failures_omit_only_their_group_witness :
    (findS rootMount (collectStats envEx cEx).1.DiskStat).isSome ↔
      rootMount ∈ cEx.partitions ∧ (envEx.diskUsage rootMount).isSome :=
  (c2_failures_omit_only_their_group envEx cEx).2.2.2.2.2.2.2.1 rootMount

/-- C3: when the summed bucket totals of two successive samples are equal
(first-ever sample included) the Snapshot collector's `total > 0` guard
fails and every category percentage of the cycle stays at its zero
initialization; the registry publisher's `total != 0` guard likewise never
fires, leaving its (zero-initialized) gauges untouched.  In both samplers
the division is guarded, never executed. -/
theorem c3_equal_totals_zero_percentages (env : Env) (c : Collector) :
    (∀ t2 rest prev, env.cpuTimes = some (t2 :: rest) → c.cpuStat = some prev →
        t2.Total = prev.Total → (collectStats env c).1.CPUStat = {}) ∧
    (c.cpuStat = none → (collectStats env c).1.CPUStat = {}) ∧
    (∀ st g, (Monitor.captureCPUOnce env.cpuTimes st g).2 = g) := by
  refine ⟨?_, ?_, fun st g => captureCPUOnce_gauges_eq env.cpuTimes st g⟩
  · intro t2 rest prev hread hprev htot
    have hcpu : (collectStats env c).1.CPUStat = (collectCPU c.cpuStat env.cpuTimes).1 :=
      rfl
    rw [hcpu, hread, hprev]
    simp [collectCPU, htot]
  · intro hnone
    have hcpu : (collectStats env c).1.CPUStat = (collectCPU c.cpuStat env.cpuTimes).1 :=
      rfl
    rw [hcpu, hnone]
    cases hread : env.cpuTimes with
    | none => rfl
    | some l =>
      cases l with
      | nil => rfl
      | cons t rest => simp [collectCPU]

/-- C3 witness: a repeated CPU sample yields all-zero percentages. -/
theorem c3_equal_totals_zero_percentages_witness :
    (collectStats envEqEx cEx).1.CPUStat = {} :=
  (c3_equal_totals_zero_percentages envEqEx cEx).1 prevEx [] prevEx rfl rfl rfl

/-- C4 counterexample: with previous bytes-sent 0 and current bytes-sent
2^63 (readings with `a2 ≥ a1`), the metrics-registry publisher's gauge
reports `int64(2^63) = -2^63`, not the claimed delta `a2 - a1 = 2^63`. -/
theorem c4_counterexample_int64_wrap :
    ioZeroEx.BytesSent ≤ ioHugeEx.BytesSent ∧
    ioHugeEx.BytesSent - ioZeroEx.BytesSent = 2 ^ 63 ∧
    findS eth0 (Monitor.captureBandwidthLoop [ioHugeEx] [(eth0, ioZeroEx)] []).1 =
      some { BytesSent := -(2 ^ 63 : Int), BytesRecv := 0, PacketsSent := 0,
             PacketsRecv := 0 } ∧
    (-(2 ^ 63 : Int)) ≠ ((ioHugeEx.BytesSent - ioZeroEx.BytesSent : Nat) : Int) := by
  refine ⟨by decide, by decide, by decide, by decide⟩

/-- C4 (amended): for a previously observed interface the Snapshot
collector's reported delta is exactly `a2 - a1` whenever `a2 ≥ a1` (uint64
readings), and on first observation the delta is computed against the new
reading itself, yielding zero; the metrics-registry publisher's gauge cells
carry the same exact delta provided each delta additionally fits in int64
(is below 2^63) — beyond that the int64 conversion wraps it. -/
theorem c4_network_delta_exact (s s2 : IOCountersStat) (rest : List IOCountersStat)
    (m : List (String × IOCountersStat)) (g : List (String × Monitor.BandwidthGauges)) :
    (findS s.Name m = some s2 →
      s2.BytesSent ≤ s.BytesSent → s.BytesSent < U64 →
      s2.BytesRecv ≤ s.BytesRecv → s.BytesRecv < U64 →
      s2.PacketsSent ≤ s.PacketsSent → s.PacketsSent < U64 →
      s2.PacketsRecv ≤ s.PacketsRecv → s.PacketsRecv < U64 →
      (bandwidthLoop (s :: rest) m).1.head? = some (s.Name,
        { BytesSent := s.BytesSent - s2.BytesSent,
          BytesRecv := s.BytesRecv - s2.BytesRecv,
          PacketsSent := s.PacketsSent - s2.PacketsSent,
          PacketsRecv := s.PacketsRecv - s2.PacketsRecv })) ∧
    (findS s.Name m = none →
      (bandwidthLoop (s :: rest) m).1.head? = some (s.Name, {})) ∧
    (findS s.Name m = some s2 →
      s2.BytesSent ≤ s.BytesSent → s.BytesSent < U64 →
        s.BytesSent - s2.BytesSent < 2 ^ 63 →
      s2.BytesRecv ≤ s.BytesRecv → s.BytesRecv < U64 →
        s.BytesRecv - s2.BytesRecv < 2 ^ 63 →
      s2.PacketsSent ≤ s.PacketsSent → s.PacketsSent < U64 →
        s.PacketsSent - s2.PacketsSent < 2 ^ 63 →
      s2.PacketsRecv ≤ s.PacketsRecv → s.PacketsRecv < U64 →
        s.PacketsRecv - s2.PacketsRecv < 2 ^ 63 →
      findS s.Name (Monitor.captureBandwidthLoop [s] m g).1 =
        some { BytesSent := ((s.BytesSent - s2.BytesSent : Nat) : Int),
               BytesRecv := ((s.BytesRecv - s2.BytesRecv : Nat) : Int),
               PacketsSent := ((s.PacketsSent - s2.PacketsSent : Nat) : Int),
               PacketsRecv := ((s.PacketsRecv - s2.PacketsRecv : Nat) : Int) }) := by
  refine ⟨?_, ?_, ?_⟩
  · intro h h1 h2 h3 h4 h5 h6 h7 h8
    rw [bandwidthLoop]
    simp [h, u64sub_exact h1 h2, u64sub_exact h3 h4, u64sub_exact h5 h6,
      u64sub_exact h7 h8]
  · intro h
    rw [bandwidthLoop]
    simp [h, findS_setS_self, u64sub_self]
  · intro h h1 h2 h3 h4 h5 h6 h7 h8 h9 h10 h11 h12
    rw [Monitor.captureBandwidthLoop]
    simp [h, findS_setS_self, u64sub_exact h1 h2, u64sub_exact h4 h5,
      u64sub_exact h7 h8, u64sub_exact h10 h11, i64ofU64_small h3,
      i64ofU64_small h6, i64ofU64_small h9, i64ofU64_small h12,
      Monitor.captureBandwidthLoop]

/-- C4 witness: both exact-delta conjuncts at concrete counter readings. -/
theorem c4_network_delta_exact_witness :
    (bandwidthLoop [ioCurEx] [(eth0, ioPrevEx)]).1.head? =
      some (ioCurEx.Name,
        { BytesSent := ioCurEx.BytesSent - ioPrevEx.BytesSent,
          BytesRecv := ioCurEx.BytesRecv - ioPrevEx.BytesRecv,
          PacketsSent := ioCurEx.PacketsSent - ioPrevEx.PacketsSent,
          PacketsRecv := ioCurEx.PacketsRecv - ioPrevEx.PacketsRecv }) ∧
    findS ioCurEx.Name
        (Monitor.captureBandwidthLoop [ioCurEx] [(eth0, ioPrevEx)] []).1 =
      some { BytesSent := ((ioCurEx.BytesSent - ioPrevEx.BytesSent : Nat) : Int),
             BytesRecv := ((ioCurEx.BytesRecv - ioPrevEx.BytesRecv : Nat) : Int),
             PacketsSent := ((ioCurEx.PacketsSent - ioPrevEx.PacketsSent : Nat) : Int),
             PacketsRecv := ((ioCurEx.PacketsRecv - ioPrevEx.PacketsRecv : Nat) : Int) } :=
  ⟨(c4_network_delta_exact ioCurEx ioPrevEx [] [(eth0, ioPrevEx)] []).1
      (by decide) (by decide) (by decide) (by decide) (by decide) (by decide)
      (by decide) (by decide) (by decide),
   (c4_network_delta_exact ioCurEx ioPrevEx [] [(eth0, ioPrevEx)] []).2.2
      (by decide) (by decide) (by decide) (by decide) (by decide) (by decide)
      (by decide) (by decide) (by decide) (by decide) (by decide) (by decide)
      (by decide)⟩

/-- C5: a freshly constructed Collector (`New`: no previous CPU sample,
empty interface map) reports zero for every delta-derived field of its
first sample — all four CPU percentages and every per-interface bandwidth
delta — and `Run`'s immediate first emission is exactly that sample. -/
theorem c5_first_sample_zero_deltas (parts : List PartitionStat) (env : Env)
    (ns : List IOCountersStat) (hnet : env.netIOCounters = some ns)
    (hnodup : (ns.map IOCountersStat.Name).Nodup) :
    (collectStats env (New parts)).1.CPUStat = {} ∧
    (∀ pr ∈ (collectStats env (New parts)).1.BandwidthStat,
      pr.2 = ({} : BandwidthStat)) ∧
    (Run (New parts) env []).1 = [(collectStats env (New parts)).1] := by
  refine ⟨?_, ?_, rfl⟩
  · have hcpu : (collectStats env (New parts)).1.CPUStat =
        (collectCPU none env.cpuTimes).1 := rfl
    rw [hcpu]
    cases hread : env.cpuTimes with
    | none => rfl
    | some l =>
      cases l with
      | nil => rfl
      | cons t rest => simp [collectCPU]
  · have hbw : (collectStats env (New parts)).1.BandwidthStat =
        (bandwidthLoop ns []).1 := by
      simp [collectStats, New, hnet]
    rw [hbw]
    exact bandwidthLoop_fresh_zero ns [] (fun s _ => rfl) hnodup

/-- C5 witness: first sample of a fresh Collector at a concrete cycle. -/
theorem c5_first_sample_zero_deltas_witness :
    (collectStats envEx (New [{ Mountpoint := "/" }])).1.CPUStat = {} :=
  (c5_first_sample_zero_deltas [{ Mountpoint := "/" }] envEx [ioCurEx] rfl
    (by decide)).1

/-- C6: `Run` emits the Snapshot collected on entry as its first output,
before any tick or Done event is consumed, and in total emits one Snapshot
plus one per tick observed before the first Done. -/
theorem c6_run_first_immediate (c : Collector) (env0 : Env) (evs : List RunEvent) :
    (Run c env0 evs).1.head? = some (collectStats env0 c).1 ∧
    (Run c env0 evs).1.length = ticksBeforeDone evs + 1 := by
  constructor
  · rfl
  · simp [Run, runFrom_length]

/-- C6 witness: one tick before Done gives exactly two emissions. -/
theorem c6_run_first_immediate_witness :
    (Run cEx envEx [RunEvent.tick envEx, RunEvent.done]).1.length =
      ticksBeforeDone [RunEvent.tick envEx, RunEvent.done] + 1 :=
  (c6_run_first_immediate cEx envEx [RunEvent.tick envEx, RunEvent.done]).2

/-- C7: when Done is observed before any tick, `Run` still emits exactly
the one immediate Snapshot and returns the final state unchanged past that
first collection; and with Done anywhere between ticks it returns after
exactly one emission per preceding tick (plus the immediate one), a normal
return — the embedding, like the Go function, has no error result. -/
theorem c7_cancel_before_first_tick (c : Collector) (env0 : Env)
    (evs : List RunEvent) (envs : List Env) (post : List RunEvent)
    (h : evs.head? = some RunEvent.done) :
    Run c env0 evs = ([(collectStats env0 c).1], (collectStats env0 c).2) ∧
    (Run c env0 evs).1.length = 1 ∧
    (Run c env0 (envs.map RunEvent.tick ++ RunEvent.done :: post)).1.length =
      envs.length + 1 := by
  have hevs : ∃ t, evs = RunEvent.done :: t := by
    cases evs with
    | nil => simp at h
    | cons e t =>
      cases e with
      | tick env => simp at h
      | done => exact ⟨t, rfl⟩
  obtain ⟨t, rfl⟩ := hevs
  refine ⟨rfl, rfl, ?_⟩
  simp [Run, runFrom_ticks_then_done]

/-- C7 witness: Done as the very first event at a concrete state. -/
theorem c7_cancel_before_first_tick_witness :
    Run cEx envEx [RunEvent.done] =
      ([(collectStats envEx cEx).1], (collectStats envEx cEx).2) :=
  (c7_cancel_before_first_tick cEx envEx [RunEvent.done] [] [] rfl).1

/-- C8: the stats handler always answers with an implicit 200, a text/plain
content type and one `key=value` line per collected metric, and a missing,
unparsable or non-positive `seconds` form value is silently normalized to a
30-second wait. -/
theorem c8_seconds_normalized_and_200 (sv : String)
    (rvals : List (String × MetricValue)) (ss : SystemStats) :
    (Stat.Stats sv rvals ss).statusCode = 200 ∧
    (Stat.Stats sv rvals ss).contentType = "text/plain; charset=utf-8" ∧
    (Stat.Stats sv rvals ss).body = (rvals ++ ss.Values).map Stat.renderLine ∧
    ((Stat.goParseInt sv = none ∨ ∃ n, Stat.goParseInt sv = some n ∧ n ≤ 0) →
      (Stat.Stats sv rvals ss).waitSeconds = 30) := by
  refine ⟨rfl, rfl, rfl, ?_⟩
  intro h
  rcases h with hnone | ⟨n, hsome, hle⟩
  · simp [Stat.Stats, hnone]
  · simp [Stat.Stats, hsome, hle]

/-- C8 witness: missing, malformed and negative `seconds` values all
normalize to 30, with status 200. -/
theorem c8_seconds_normalized_and_200_witness :
    (Stat.Stats emptySecondsEx [] {}).waitSeconds = 30 ∧
    (Stat.Stats badSecondsEx [] {}).waitSeconds = 30 ∧
    (Stat.Stats negSecondsEx [] {}).waitSeconds = 30 ∧
    (Stat.Stats emptySecondsEx [] {}).statusCode = 200 :=
  ⟨(c8_seconds_normalized_and_200 emptySecondsEx [] {}).2.2.2 (Or.inl (by decide)),
   (c8_seconds_normalized_and_200 badSecondsEx [] {}).2.2.2 (Or.inl (by decide)),
   (c8_seconds_normalized_and_200 negSecondsEx [] {}).2.2.2
     (Or.inr ⟨-5, by decide, by decide⟩),
   (c8_seconds_normalized_and_200 emptySecondsEx [] {}).1⟩

/-- C9: `registerBandwidthMetrics` binds all four per-interface counter
names to the single `bsGauge` cell (the BytesSent cell), although the four
cells it creates are pairwise distinct — the packet and bytes-received
counters are never exposed under their own cells in this publisher. -/
theorem c9_bandwidth_registered_to_one_cell (nid : Nat) (r : List (String × Nat))
    (name : String) :
    (Monitor.registerBandwidthMetrics nid r name).2.1 =
      r ++ [("bandwidth." ++ name ++ ".BytesSent",
              (Monitor.registerBandwidthMetrics nid r name).1.BytesSent),
            ("bandwidth." ++ name ++ ".BytesRecv",
              (Monitor.registerBandwidthMetrics nid r name).1.BytesSent),
            ("bandwidth." ++ name ++ ".PacketsSent",
              (Monitor.registerBandwidthMetrics nid r name).1.BytesSent),
            ("bandwidth." ++ name ++ ".PacketsRecv",
              (Monitor.registerBandwidthMetrics nid r name).1.BytesSent)] ∧
    (Monitor.registerBandwidthMetrics nid r name).1.BytesRecv ≠
      (Monitor.registerBandwidthMetrics nid r name).1.BytesSent ∧
    (Monitor.registerBandwidthMetrics nid r name).1.PacketsSent ≠
      (Monitor.registerBandwidthMetrics nid r name).1.BytesSent ∧
    (Monitor.registerBandwidthMetrics nid r name).1.PacketsRecv ≠
      (Monitor.registerBandwidthMetrics nid r name).1.BytesSent := by
  have hbs : (Monitor.registerBandwidthMetrics nid r name).1.BytesSent = nid := rfl
  have hbc : (Monitor.registerBandwidthMetrics nid r name).1.BytesRecv = nid + 1 := rfl
  have hps : (Monitor.registerBandwidthMetrics nid r name).1.PacketsSent = nid + 2 := rfl
  have hpc : (Monitor.registerBandwidthMetrics nid r name).1.PacketsRecv = nid + 3 := rfl
  refine ⟨rfl, ?_, ?_, ?_⟩
  · rw [hbc, hbs]; omega
  · rw [hps, hbs]; omega
  · rw [hpc, hbs]; omega

/-- C9 witness: the four registered names share one cell at concrete
arguments. -/
theorem c9_bandwidth_registered_to_one_cell_witness :
    (Monitor.registerBandwidthMetrics 0 [] eth0).1.PacketsSent ≠
      (Monitor.registerBandwidthMetrics 0 [] eth0).1.BytesSent :=
  (c9_bandwidth_registered_to_one_cell 0 [] eth0).2.2.1

/-- C10: the partition list is fixed at construction: `collectStats`,
`Once` and `Run` all return it unchanged, a Snapshot's disk map only ever
contains construction-time partitions (a later mount never appears), the
registry publisher's disk loop touches no gauge entry outside the
construction-time list, `New` and `RegisterSystemStats` both take the list
from the construction-time `disk.Partitions` read, and every registered
disk metric name comes from that list. -/
theorem c10_partition_set_fixed (env env0 : Env) (c : Collector)
    (evs : List RunEvent) (parts : List String)
    (dRead : String → Option UsageStat) (g : List (String × (Int × Int)))
    (p : String) :
    (collectStats env c).2.partitions = c.partitions ∧
    (Once env c).2.partitions = c.partitions ∧
    (Run c env0 evs).2.partitions = c.partitions ∧
    (p ∉ c.partitions → findS p (collectStats env c).1.DiskStat = none) ∧
    (p ∉ parts → findS p (Monitor.captureDiskOnce dRead parts g) = findS p g) ∧
    (∀ stats : List PartitionStat,
      (New stats).partitions = stats.map PartitionStat.Mountpoint ∧
      Monitor.registerPartitions stats = stats.map PartitionStat.Mountpoint) ∧
    (∀ nm ∈ Monitor.registerDiskNames parts, ∃ q ∈ parts,
      nm = "disk." ++ q ++ ".Total" ∨ nm = "disk." ++ q ++ ".Free") := by
  refine ⟨rfl, rfl, ?_, ?_, ?_, fun stats => ⟨rfl, rfl⟩, registerDiskNames_mem parts⟩
  · show (runFrom (collectStats env0 c).2 evs).2.partitions = c.partitions
    rw [runFrom_partitions, collectStats_partitions]
  · intro hp
    have hd : (collectStats env c).1.DiskStat = diskLoop env.diskUsage c.partitions [] :=
      rfl
    rw [hd, findS_diskLoop_not_mem env.diskUsage c.partitions p hp]
    rfl
  · intro hp
    exact captureDiskOnce_not_mem dRead parts p hp g

/-- C10 witness: a mountpoint outside the construction-time list never
appears in a Snapshot's disk map. -/
theorem c10_partition_set_fixed_witness :
    findS tmpMount (collectStats envEx cEx).1.DiskStat = none :=
  (c10_partition_set_fixed envEx envEx cEx [] [] (fun _ => none) [] tmpMount).2.2.2.1
    (by decide)

end AppMetrics
